import Mathlib

/-!
Shallow embedding of the session-orchestration core of the Athena meeting
bot (athena_meet_bot.py): the session data model, the Verifier, the
orchestrator's join, the staleness sweep, the transcript monitor,
finalize, webhook delivery, the admission monitor, and the persisted
session snapshot.  Remote HTTP interactions are abstracted as explicit
environments (functions from endpoint to response / lists of responses);
side effects (HTTP calls, sleeps, snapshot saves, task spawns) are
recorded in an event trace.
-/

namespace Athena

/-- The MeetingStatus enum of athena_meet_bot.py. -/
inductive MeetingStatus where
  | created
  | bot_joining
  | in_progress
  | completed
  | failed
deriving DecidableEq

/-- The string value of each MeetingStatus member (its .value). -/
def MeetingStatus.value : MeetingStatus → String
  | .created => "created"
  | .bot_joining => "bot_joining"
  | .in_progress => "in_progress"
  | .completed => "completed"
  | .failed => "failed"

/-- Inverse of MeetingStatus.value, as used by MeetingStatus(string) in
the session loader; an unknown string raises, modelled as none. -/
def MeetingStatus.ofValue : String → Option MeetingStatus
  | "created" => some .created
  | "bot_joining" => some .bot_joining
  | "in_progress" => some .in_progress
  | "completed" => some .completed
  | "failed" => some .failed
  | _ => none

/-- The MeetingSession dataclass.  Times are seconds since an arbitrary
epoch (Int), matching comparisons and timedelta arithmetic on datetimes. -/
structure MeetingSession where
  meeting_id : String
  google_meet_url : String
  google_meet_id : String
  start_time : Int
  end_time : Option Int
  status : MeetingStatus
  bot_session_id : Option String := none
  transcript : Option String := none
  error_message : Option String := none
  retry_count : Nat := 0
deriving DecidableEq

/-- A bot record as returned by the Vexa gateway GET endpoints; each
field is none when the key is absent from the JSON object. -/
structure BotData where
  native_meeting_id : Option String := none
  meeting_id : Option String := none
  id : Option String := none
  bot_id : Option String := none
  status : Option String := none
deriving DecidableEq

/-- Response to a GET request in the verifier: a 200 with a list of bot
records (a single JSON object is the singleton list), a non-200 status,
or a transport error (requests.RequestException). -/
inductive GetResp where
  | ok (bots : List BotData)
  | httpErr (code : Nat)
  | netErr
deriving DecidableEq

/-- dict.get(key, default) on two optional fields:
bot_data.get("id", bot_data.get("bot_id")). -/
def firstSome (a b : Option String) : Option String :=
  match a with
  | some x => some x
  | none => b

/-- The statuses _verify_bot_active counts as active. -/
def verifyActiveStatuses : List String := ["active", "in_meeting", "connected"]

/-- Whether a bot record matches the session's meeting: its
native_meeting_id or meeting_id equals the session's google_meet_id. -/
def botMatches (mid : String) (b : BotData) : Bool :=
  b.native_meeting_id == some mid || b.meeting_id == some mid

/-- Whether a bot record's status is one of the verifier's active
statuses (a missing status never is). -/
def botActive (b : BotData) : Bool :=
  match b.status with
  | some s => verifyActiveStatuses.contains s
  | none => false

/-- The first bot in a 200 response that both matches the meeting and is
active, as found by the for-loop in _verify_bot_active. -/
def findActiveBot (mid : String) (bots : List BotData) : Option BotData :=
  bots.find? (fun b => botMatches mid b && botActive b)

/-- The endpoints _verify_bot_active tries, in source order. -/
def verifyEndpoints (s : MeetingSession) : List String :=
  ["/bots/google_meet/" ++ s.google_meet_id,
   "/bots/" ++ s.google_meet_id,
   "/bots"]

/-- The endpoint loop of _verify_bot_active: on a 200, search the bots;
a match that is active stores its remote id into bot_session_id and
returns true; a 200 from /bots with no match breaks the loop; any
non-200 or transport error moves to the next endpoint.  Returns the
result, the (possibly mutated) session, and the endpoints queried. -/
def verifyGo (env : String → GetResp) (s : MeetingSession) :
    List String → Bool × MeetingSession × List String
  | [] => (false, s, [])
  | e :: rest =>
    match env e with
    | .ok bots =>
        match findActiveBot s.google_meet_id bots with
        | some b =>
            (true, { s with bot_session_id := firstSome b.id b.bot_id }, [e])
        | none =>
            if e = "/bots" then (false, s, [e])
            else
              let r := verifyGo env s rest
              (r.1, r.2.1, e :: r.2.2)
    | .httpErr _ =>
        let r := verifyGo env s rest
        (r.1, r.2.1, e :: r.2.2)
    | .netErr =>
        let r := verifyGo env s rest
        (r.1, r.2.1, e :: r.2.2)

/-- Model of _verify_bot_active(session): tries the three endpoints in order. -/
def verify_bot_active (env : String → GetResp) (s : MeetingSession) :
    Bool × MeetingSession × List String :=
  verifyGo env s (verifyEndpoints s)

/-- One transcript poll in _monitor_transcript: a 200 whose body has a
transcript field (none when the key is absent), a non-200, or an
exception during the request. -/
inductive PollResult where
  | ok (transcript : Option String)
  | httpErr (code : Nat)
  | exn
deriving DecidableEq

/-- The transcript update of one _monitor_transcript iteration: only a
200 whose transcript field is truthy (present and non-empty) overwrites
the stored transcript. -/
def transcriptStep (stored : Option String) (r : PollResult) : Option String :=
  match r with
  | .ok (some t) => if t = "" then stored else some t
  | .ok none => stored
  | .httpErr _ => stored
  | .exn => stored

/-- The stored transcript after a sequence of polls of the transcript
monitor loop. -/
def monitorTranscriptPolls (stored : Option String) (polls : List PollResult) :
    Option String :=
  polls.foldl transcriptStep stored

/-- Observable side effects of the orchestrator, recorded in traces:
a _verify_bot_active call, a DELETE of the bot, a POST /bots create
call, an asyncio.sleep, spawning the admission-monitor task, spawning a
join task, a webhook POST, and a _save_sessions snapshot write. -/
inductive Ev where
  | verify
  | deleteBot
  | create
  | sleep (secs : Nat)
  | spawnAdmission
  | spawnJoin
  | post
  | save
deriving DecidableEq

/-- Response of the gateway POST /bots create call: a 200/201 with the
body's id and bot_id fields, a 409 conflict with the response text, any
other status with its text, or a transport error. -/
inductive CreateResp where
  | ok (code : Nat) (id : Option String) (botId : Option String)
  | conflict (text : String)
  | err (code : Nat) (text : String)
  | netErr (msg : String)
deriving DecidableEq

/-- join_meeting_with_athena(session).  env1 is the remote state seen by
the initial verification, env2 the one seen by the re-verification after
a 409; create is the outcome of the POST /bots call; joinDelay is
config bot.join_delay.  Returns the boolean result, the mutated session,
and the event trace. -/
def join_meeting_with_athena (env1 env2 : String → GetResp)
    (create : CreateResp) (joinDelay : Nat) (s0 : MeetingSession) :
    Bool × MeetingSession × List Ev :=
  let s := { s0 with status := .bot_joining }
  let v := verify_bot_active env1 s
  if v.1 then
    (true, { v.2.1 with status := .in_progress }, [.verify])
  else
    let cleanup :=
      match v.2.1.bot_session_id with
      | some _ => ({ v.2.1 with bot_session_id := none },
                   [Ev.deleteBot, Ev.sleep 2])
      | none => (v.2.1, [])
    let s2 := cleanup.1
    let tr := Ev.verify :: cleanup.2 ++ [Ev.sleep joinDelay, Ev.create]
    match create with
    | .ok _ id botId =>
        (true, { s2 with bot_session_id := firstSome id botId,
                         status := .bot_joining },
         tr ++ [.spawnAdmission])
    | .conflict text =>
        let v2 := verify_bot_active env2 s2
        if v2.1 then
          (true, { v2.2.1 with status := .in_progress }, tr ++ [.verify])
        else
          let emsg := "Bot exists but not active: " ++ text
          (false, { v2.2.1 with status := .failed, error_message := some emsg },
           tr ++ [.verify])
    | .err code text =>
        let emsg := "Vexa API error: " ++ toString code ++ " - " ++ text
        (false, { s2 with status := .failed, error_message := some emsg }, tr)
    | .netErr msg =>
        (false, { s2 with status := .failed, error_message := some msg }, tr)

/-- One webhook POST outcome in _deliver_transcript_webhook: an HTTP
status or an exception during the request. -/
inductive WebhookResp where
  | status (code : Nat)
  | exn (msg : String)
deriving DecidableEq

/-- The retry loop of _deliver_transcript_webhook from a given attempt
index: each attempt POSTs; a 200 returns immediately; anything else
counts as a failed attempt and, when attempts remain, sleeps 2^attempt
seconds.  The remaining counter mirrors range(max_retries). -/
def deliverFrom (resps : Nat → WebhookResp) (maxRetries : Nat) :
    Nat → Nat → List Ev
  | 0, _ => []
  | remaining + 1, attempt =>
    match resps attempt with
    | .status 200 => [.post]
    | _ =>
        if attempt < maxRetries - 1 then
          Ev.post :: Ev.sleep (2 ^ attempt) ::
            deliverFrom resps maxRetries remaining (attempt + 1)
        else
          Ev.post :: deliverFrom resps maxRetries remaining (attempt + 1)

/-- Model of _deliver_transcript_webhook(session): runs the retry loop; the
session is only read (for the payload), never written, so it is returned
unchanged together with the trace. -/
def deliver_transcript_webhook (resps : Nat → WebhookResp)
    (maxRetries : Nat) (s : MeetingSession) : MeetingSession × List Ev :=
  (s, deliverFrom resps maxRetries maxRetries 0)

/-- Outcome of the single GET in _get_final_transcript. -/
inductive FetchResult where
  | ok (transcript : Option String)
  | httpErr (code : Nat)
  | exn (msg : String)
deriving DecidableEq

/-- Model of _get_final_transcript(session): a 200 stores the body's transcript
field (defaulting to "No transcript available" when absent); any other
status or an exception stores an error string. -/
def get_final_transcript (r : FetchResult) (s : MeetingSession) :
    MeetingSession :=
  match r with
  | .ok t => { s with transcript := some (t.getD "No transcript available") }
  | .httpErr c =>
      let t := "Error retrieving transcript: " ++ toString c
      { s with transcript := some t }
  | .exn m =>
      { s with transcript := some ("Error retrieving transcript: " ++ m) }

/-- Python truthiness of session.transcript: falsy when None or "". -/
def transcriptFalsy (s : MeetingSession) : Bool :=
  s.transcript = none || s.transcript = some ""

/-- Model of _finalize_meeting(session): stamps end_time with now, sets status
COMPLETED, fetches the transcript once more when the stored one is
falsy, then delivers via webhook. -/
def finalize_meeting (now : Int) (finalFetch : FetchResult)
    (resps : Nat → WebhookResp) (maxRetries : Nat) (s : MeetingSession) :
    MeetingSession × List Ev :=
  let s1 := { s with end_time := some now, status := .completed }
  let s2 := if transcriptFalsy s1 then get_final_transcript finalFetch s1 else s1
  let d := deliver_transcript_webhook resps maxRetries s2
  (d.1, d.2)

/-- One session's handling in a _check_pending_joins sweep pass at time
now: a CREATED session at-or-past start and within 600 s is verified —
active advances it to IN_PROGRESS and saves, otherwise a join task is
spawned; any session with start_time more than 2 hours (7200 s) in the
past is torn down (bot delete task when a reference is held) and removed
from the map, followed by a save; everything else is untouched.  Returns
none when the session is removed. -/
def sweepSession (env : String → GetResp) (now : Int) (s : MeetingSession) :
    Option MeetingSession × List Ev :=
  if s.status = .created ∧ s.start_time ≤ now ∧ now - s.start_time < 600 then
    let v := verify_bot_active env s
    if v.1 then
      (some { v.2.1 with status := .in_progress }, [.verify, .save])
    else
      (some v.2.1, [.verify, .spawnJoin])
  else if s.start_time < now - 7200 then
    let dels := match s.bot_session_id with
      | some _ => [Ev.deleteBot]
      | none => []
    (none, dels ++ [Ev.save])
  else
    (some s, [])

/-- A full _check_pending_joins pass over the session map (modelled as an
association list): each session is handled by sweepSession; removed
sessions are dropped from the resulting map. -/
def check_pending_joins (env : String → GetResp) (now : Int) :
    List (String × MeetingSession) →
    List (String × MeetingSession) × List Ev
  | [] => ([], [])
  | (i, s) :: rest =>
    let r := sweepSession env now s
    let tail := check_pending_joins env now rest
    (match r.1 with
     | some s1 => (i, s1) :: tail.1
     | none => tail.1,
     r.2 ++ tail.2)

/-- Response to the detailed GET /bots/(bot_session_id) status check in
_monitor_bot_admission: a 200 carrying the body's status string (the
empty string when the key is absent), a non-200, or an exception. -/
inductive StatusResp where
  | ok (status : String)
  | httpErr (code : Nat)
  | exn
deriving DecidableEq

/-- Remote state observed by one 5-second admission-monitor iteration:
the GET environment seen by _verify_bot_active, the detailed status
response, and the environments/create outcome a reconnection's
join_meeting_with_athena call would see. -/
structure AdmTick where
  verifyEnv : String → GetResp
  statusResp : StatusResp
  joinEnv1 : String → GetResp
  joinEnv2 : String → GetResp
  createResp : CreateResp

/-- How one admission-monitor run ends: bot admitted (IN_PROGRESS,
transcript monitor spawned), handoff to a fresh monitor after a
successful reconnection join, reconnection attempts exhausted, or the
10-minute bound reached. -/
inductive AdmOutcome where
  | admitted
  | handoff
  | failedExhausted
  | failedTimeout
deriving DecidableEq

/-- check_interval of _monitor_bot_admission (seconds). -/
def admCheckInterval : Nat := 5

/-- max_monitoring_time of _monitor_bot_admission (seconds). -/
def admMaxMonitoringTime : Nat := 600

/-- max_reconnect_attempts of _monitor_bot_admission. -/
def admMaxReconnectAttempts : Nat := 5

/-- The iteration bound of the admission monitor: the 10-minute window
divided into 5-second ticks. -/
def admMaxTicks : Nat := admMaxMonitoringTime / admCheckInterval

/-- ASCII lowering of one character, as str.lower() acts on the ASCII
status strings involved here. -/
def lowerChar (c : Char) : Char :=
  if c.isUpper then Char.ofNat (c.toNat + 32) else c

/-- str.lower() on a status string (ASCII). -/
def strLower (s : String) : String := String.mk (s.data.map lowerChar)

/-- Statuses the admission monitor treats as admitted. -/
def admActiveStatuses : List String :=
  ["active", "in_meeting", "connected", "admitted"]

/-- Statuses the admission monitor treats as still waiting. -/
def admWaitingStatuses : List String :=
  ["waiting_for_admission", "pending", "waiting"]

/-- Statuses the admission monitor treats as disconnected/failed. -/
def admDisconnectedStatuses : List String :=
  ["failed", "error", "disconnected", "left"]

/-- The while-loop of _monitor_bot_admission: fuel counts the remaining
5-second ticks of the 10-minute window, i indexes the observation
stream, r counts reconnection attempts made so far.  Each tick verifies;
active advances to IN_PROGRESS and exits.  Otherwise the detailed status
is inspected: admitted-like exits to IN_PROGRESS; waiting-like loops;
disconnected-like performs a reconnection (delete, wait, re-join) when
fewer than 5 were made — a successful join hands off to the fresh
monitor it spawned — and otherwise sets FAILED and exits.  Running out
of fuel is the 10-minute timeout, which sets FAILED. -/
def monitorAdmissionGo (joinDelay : Nat) (ticks : Nat → AdmTick) :
    MeetingSession → Nat → Nat → Nat → AdmOutcome × MeetingSession × Nat
  | s, r, 0, _ => (.failedTimeout, { s with status := .failed }, r)
  | s, r, fuel + 1, i =>
    let t := ticks i
    let v := verify_bot_active t.verifyEnv s
    if v.1 then
      (.admitted, { v.2.1 with status := .in_progress }, r)
    else
      match t.statusResp with
      | .ok st =>
        let stl := strLower st
        if admActiveStatuses.contains stl then
          (.admitted, { v.2.1 with status := .in_progress }, r)
        else if admWaitingStatuses.contains stl then
          monitorAdmissionGo joinDelay ticks v.2.1 r fuel (i + 1)
        else if admDisconnectedStatuses.contains stl then
          if r < admMaxReconnectAttempts then
            let j := join_meeting_with_athena t.joinEnv1 t.joinEnv2
              t.createResp joinDelay v.2.1
            if j.1 then (.handoff, j.2.1, r + 1)
            else monitorAdmissionGo joinDelay ticks j.2.1 (r + 1) fuel (i + 1)
          else
            (.failedExhausted, { v.2.1 with status := .failed }, r)
        else
          monitorAdmissionGo joinDelay ticks v.2.1 r fuel (i + 1)
      | .httpErr _ => monitorAdmissionGo joinDelay ticks v.2.1 r fuel (i + 1)
      | .exn => monitorAdmissionGo joinDelay ticks v.2.1 r fuel (i + 1)

/-- Model of _monitor_bot_admission(session): the loop from a fresh start, zero
reconnection attempts, full 10-minute fuel. -/
def monitor_bot_admission (joinDelay : Nat) (ticks : Nat → AdmTick)
    (s : MeetingSession) : AdmOutcome × MeetingSession × Nat :=
  monitorAdmissionGo joinDelay ticks s 0 admMaxTicks 0

/-- The per-session dict written by _save_sessions: only these seven
keys are stored; transcript, error_message and retry_count are not. -/
structure SavedSession where
  meeting_id : String
  google_meet_url : String
  google_meet_id : String
  start_time : Int
  end_time : Option Int
  status : String
  bot_session_id : Option String
deriving DecidableEq

/-- The dict _save_sessions builds for one session. -/
def saveOne (s : MeetingSession) : SavedSession :=
  { meeting_id := s.meeting_id
    google_meet_url := s.google_meet_url
    google_meet_id := s.google_meet_id
    start_time := s.start_time
    end_time := s.end_time
    status := s.status.value
    bot_session_id := s.bot_session_id }

/-- Model of _save_sessions: the pickled snapshot, an association list from
session id to the saved dict. -/
def save_sessions (l : List (String × MeetingSession)) :
    List (String × SavedSession) :=
  l.map (fun p => (p.1, saveOne p.2))

/-- Reconstruction of one MeetingSession in _load_sessions: the seven
saved keys are restored, the dataclass defaults fill transcript,
error_message and retry_count; an unknown status string raises (none). -/
def loadOne (d : SavedSession) : Option MeetingSession :=
  (MeetingStatus.ofValue d.status).map (fun st =>
    { meeting_id := d.meeting_id
      google_meet_url := d.google_meet_url
      google_meet_id := d.google_meet_id
      start_time := d.start_time
      end_time := d.end_time
      status := st
      bot_session_id := d.bot_session_id })

/-- Model of _load_sessions: recreates sessions one by one; an exception aborts
the loop (the whole load is wrapped in one try), keeping only the
entries restored before it. -/
def load_sessions : List (String × SavedSession) →
    List (String × MeetingSession)
  | [] => []
  | (i, d) :: rest =>
    match loadOne d with
    | some s => (i, s) :: load_sessions rest
    | none => []

/-- The fields _save_sessions drops, reset to their dataclass defaults:
what a save/load round trip does to a session. -/
def eraseUnsaved (s : MeetingSession) : MeetingSession :=
  { s with transcript := none, error_message := none, retry_count := 0 }

/-! Helper lemmas -/

/-- One poll never turns a non-empty stored transcript into an empty or
absent one. -/
lemma transcriptStep_preserves (t : String) (ht : t ≠ "") (r : PollResult) :
    ∃ u, u ≠ "" ∧ transcriptStep (some t) r = some u := by
  cases r with
  | ok o =>
    cases o with
    | none => exact ⟨t, ht, rfl⟩
    | some t' =>
      by_cases h : t' = ""
      · exact ⟨t, ht, by simp [transcriptStep, h]⟩
      · exact ⟨t', h, by simp [transcriptStep, h]⟩
  | httpErr c => exact ⟨t, ht, rfl⟩
  | exn => exact ⟨t, ht, rfl⟩

/-- Fold form of the preservation property over a whole poll sequence. -/
lemma monitorTranscriptPolls_preserves (polls : List PollResult) :
    ∀ t : String, t ≠ "" →
      ∃ u, u ≠ "" ∧ monitorTranscriptPolls (some t) polls = some u := by
  induction polls with
  | nil => intro t ht; exact ⟨t, ht, rfl⟩
  | cons r rest ih =>
    intro t ht
    obtain ⟨u, hu, hstep⟩ := transcriptStep_preserves t ht r
    obtain ⟨w, hw, hrest⟩ := ih u hu
    exact ⟨w, hw, by simpa [monitorTranscriptPolls, hstep] using hrest⟩

/-- Claim C1: while a session is InProgress, each transcript poll stores
the fetched value only when it is non-empty, so a failed or empty poll
never erases a previously stored non-empty transcript; the poll sequence
["", "A", "", "AB"] ends with stored transcript "AB". -/
theorem transcript_monotonicity :
    (∀ (stored : Option String) (polls : List PollResult) (t : String),
      stored = some t → t ≠ "" →
        ∃ u, u ≠ "" ∧ monitorTranscriptPolls stored polls = some u) ∧
    monitorTranscriptPolls none
      [.ok (some ""), .ok (some "A"), .ok (some ""), .ok (some "AB")] =
      some "AB" := by
  constructor
  · intro stored polls t hst ht
    subst hst
    exact monitorTranscriptPolls_preserves polls t ht
  · rfl

/-- Concrete instance of transcript monotonicity: a stored "A" survives
an erroring poll followed by an empty poll. -/
theorem transcript_monotonicity_witness :
    ∃ u, u ≠ "" ∧
      monitorTranscriptPolls (some "A") [.exn, .ok (some "")] = some u :=
  transcript_monotonicity.1 (some "A") [.exn, .ok (some "")] "A" rfl
    (by decide)

/-- A negative verification leaves the session record unchanged: the
only write to it happens immediately before returning true. -/
lemma verifyGo_neg_frame (env : String → GetResp) :
    ∀ (es : List String) (s : MeetingSession),
      (verifyGo env s es).1 = false → (verifyGo env s es).2.1 = s := by
  intro es
  induction es with
  | nil => intro s _; rfl
  | cons e rest ih =>
    intro s h
    simp only [verifyGo] at h ⊢
    cases henv : env e with
    | ok bots =>
      simp only [henv] at h ⊢
      cases hf : findActiveBot s.google_meet_id bots with
      | some b => simp [hf] at h
      | none =>
        simp only [hf] at h ⊢
        by_cases he : e = "/bots"
        · simp [he]
        · simp only [he, if_false] at h ⊢
          exact ih s h
    | httpErr c =>
      simp only [henv] at h ⊢
      exact ih s h
    | netErr =>
      simp only [henv] at h ⊢
      exact ih s h

/-- A positive verification comes from a 200 response of one of the
queried endpoints containing a matching active bot, whose remote id is
written into bot_session_id. -/
lemma verifyGo_pos (env : String → GetResp) :
    ∀ (es : List String) (s : MeetingSession),
      (verifyGo env s es).1 = true →
      ∃ e ∈ (verifyGo env s es).2.2, ∃ bots, env e = GetResp.ok bots ∧
        ∃ b, findActiveBot s.google_meet_id bots = some b ∧
          (verifyGo env s es).2.1 =
            { s with bot_session_id := firstSome b.id b.bot_id } := by
  intro es
  induction es with
  | nil => intro s h; simp [verifyGo] at h
  | cons e rest ih =>
    intro s h
    simp only [verifyGo] at h ⊢
    cases henv : env e with
    | ok bots =>
      simp only [henv] at h ⊢
      cases hf : findActiveBot s.google_meet_id bots with
      | some b =>
        simp only [hf]
        exact ⟨e, by simp, bots, henv, b, hf, rfl⟩
      | none =>
        simp only [hf] at h ⊢
        by_cases he : e = "/bots"
        · simp [he] at h
        · simp only [he, if_false] at h ⊢
          obtain ⟨e', he', bots', henv', b, hb, hs⟩ := ih s h
          exact ⟨e', by simp [he'], bots', henv', b, hb, hs⟩
    | httpErr c =>
      simp only [henv] at h ⊢
      obtain ⟨e', he', bots', henv', b, hb, hs⟩ := ih s h
      exact ⟨e', by simp [he'], bots', henv', b, hb, hs⟩
    | netErr =>
      simp only [henv] at h ⊢
      obtain ⟨e', he', bots', henv', b, hb, hs⟩ := ih s h
      exact ⟨e', by simp [he'], bots', henv', b, hb, hs⟩

/-- The endpoints actually queried form an initial segment of the
endpoint list, in its order. -/
lemma verifyGo_queried (env : String → GetResp) :
    ∀ (es : List String) (s : MeetingSession),
      ∃ n, (verifyGo env s es).2.2 = es.take n := by
  intro es
  induction es with
  | nil => intro s; exact ⟨0, rfl⟩
  | cons e rest ih =>
    intro s
    simp only [verifyGo]
    cases henv : env e with
    | ok bots =>
      simp only [henv]
      cases hf : findActiveBot s.google_meet_id bots with
      | some b =>
        simp only [hf]
        exact ⟨1, rfl⟩
      | none =>
        simp only [hf]
        by_cases he : e = "/bots"
        · simp only [he, if_true]
          exact ⟨1, by simp⟩
        · simp only [he, if_false]
          obtain ⟨n, hn⟩ := ih s
          exact ⟨n + 1, by simp [hn]⟩
    | httpErr c =>
      simp only [henv]
      obtain ⟨n, hn⟩ := ih s
      exact ⟨n + 1, by simp [hn]⟩
    | netErr =>
      simp only [henv]
      obtain ⟨n, hn⟩ := ih s
      exact ⟨n + 1, by simp [hn]⟩

/-- A bot returned by findActiveBot is in the response, matches the
meeting, and has an active status. -/
lemma findActiveBot_spec (mid : String) (bots : List BotData) (b : BotData)
    (h : findActiveBot mid bots = some b) :
    b ∈ bots ∧ botMatches mid b = true ∧ botActive b = true := by
  refine ⟨List.mem_of_find?_eq_some h, ?_⟩
  have := List.find?_some h
  simpa [Bool.and_eq_true] using this

/-- Claim C10: verification is not read-only — a positive verification
overwrites the session's stored bot reference with the id the remote API
reported for the matching active bot, while a negative verification
leaves the session record unchanged. -/
theorem verification_side_effect :
    (∀ (env : String → GetResp) (s : MeetingSession),
      (verify_bot_active env s).1 = false → (verify_bot_active env s).2.1 = s) ∧
    (∀ (env : String → GetResp) (s : MeetingSession),
      (verify_bot_active env s).1 = true →
      ∃ e ∈ (verify_bot_active env s).2.2, ∃ bots, env e = GetResp.ok bots ∧
        ∃ b ∈ bots, botMatches s.google_meet_id b = true ∧
          botActive b = true ∧
          (verify_bot_active env s).2.1 =
            { s with bot_session_id := firstSome b.id b.bot_id }) := by
  constructor
  · intro env s h
    exact verifyGo_neg_frame env (verifyEndpoints s) s h
  · intro env s h
    obtain ⟨e, he, bots, henv, b, hb, hs⟩ :=
      verifyGo_pos env (verifyEndpoints s) s h
    obtain ⟨hmem, hmatch, hact⟩ := findActiveBot_spec _ _ _ hb
    exact ⟨e, he, bots, henv, b, hmem, hmatch, hact, hs⟩

/-- A remote bot record that matches meeting m1 and is active. -/
def botRecM1 : BotData :=
  { native_meeting_id := some "m1", id := some "b1", status := some "active" }

/-- An environment in which every GET reports the active bot for m1. -/
def envActiveM1 : String → GetResp := fun _ => GetResp.ok [botRecM1]

/-- An environment in which every GET fails at the transport level. -/
def envDown : String → GetResp := fun _ => GetResp.netErr

/-- A freshly created session for meeting m1. -/
def sessW : MeetingSession :=
  { meeting_id := "mid1", google_meet_url := "https://meet.example/m1",
    google_meet_id := "m1", start_time := 0, end_time := none,
    status := .created }

/-- Concrete instance of verification's side effect: against a dead
gateway the session is untouched, against an active bot its reference is
overwritten. -/
theorem verification_side_effect_witness :
    (verify_bot_active envDown sessW).2.1 = sessW ∧
    (∃ e ∈ (verify_bot_active envActiveM1 sessW).2.2, ∃ bots,
      envActiveM1 e = GetResp.ok bots ∧
      ∃ b ∈ bots, botMatches sessW.google_meet_id b = true ∧
        botActive b = true ∧
        (verify_bot_active envActiveM1 sessW).2.1 =
          { sessW with bot_session_id := firstSome b.id b.bot_id }) :=
  ⟨verification_side_effect.1 envDown sessW (by decide),
   verification_side_effect.2 envActiveM1 sessW (by decide)⟩

/-- When the initial verification already reports the bot active, the
join returns success with the session advanced to IN_PROGRESS and the
only event is that verification: no delete, no sleep, no create. -/
lemma join_active_eq (env1 env2 : String → GetResp) (cr : CreateResp)
    (d : Nat) (s : MeetingSession)
    (h : (verify_bot_active env1 { s with status := .bot_joining }).1 = true) :
    join_meeting_with_athena env1 env2 cr d s =
      (true,
       { (verify_bot_active env1 { s with status := .bot_joining }).2.1 with
           status := .in_progress },
       [.verify]) := by
  simp [join_meeting_with_athena, h]

/-- Claim C2: for a session whose bot the Verifier already reports as
active, the join transitions directly to InProgress and succeeds without
a gateway create call, so two such joins issue at most one create. -/
theorem join_idempotent_dedup :
    (∀ (env1 env2 : String → GetResp) (cr : CreateResp) (d : Nat)
       (s : MeetingSession),
      (verify_bot_active env1 { s with status := .bot_joining }).1 = true →
      join_meeting_with_athena env1 env2 cr d s =
        (true,
         { (verify_bot_active env1 { s with status := .bot_joining }).2.1 with
             status := .in_progress },
         [.verify])) ∧
    (∀ (env1 env2 env1' env2' : String → GetResp) (cr cr' : CreateResp)
       (d d' : Nat) (s : MeetingSession),
      (verify_bot_active env1 { s with status := .bot_joining }).1 = true →
      (verify_bot_active env1'
        { (join_meeting_with_athena env1 env2 cr d s).2.1 with
            status := .bot_joining }).1 = true →
      ((join_meeting_with_athena env1 env2 cr d s).2.2 ++
        (join_meeting_with_athena env1' env2' cr' d'
          (join_meeting_with_athena env1 env2 cr d s).2.1).2.2).count
        Ev.create ≤ 1) := by
  refine ⟨join_active_eq, ?_⟩
  intro env1 env2 env1' env2' cr cr' d d' s h1 h2
  have t1 : (join_meeting_with_athena env1 env2 cr d s).2.2 = [Ev.verify] := by
    rw [join_active_eq env1 env2 cr d s h1]
  have t2 : (join_meeting_with_athena env1' env2' cr' d'
      (join_meeting_with_athena env1 env2 cr d s).2.1).2.2 = [Ev.verify] := by
    rw [join_active_eq env1' env2' cr' d' _ h2]
  rw [t1, t2]
  decide

/-- Concrete instance of the idempotent join: against an environment
already reporting an active bot for m1, the join issues no create call
and ends in IN_PROGRESS. -/
theorem join_idempotent_dedup_witness :
    join_meeting_with_athena envActiveM1 envActiveM1
        (CreateResp.ok 201 (some "b2") none) 10 sessW =
      (true,
       { (verify_bot_active envActiveM1
            { sessW with status := .bot_joining }).2.1 with
           status := .in_progress },
       [.verify]) :=
  join_idempotent_dedup.1 envActiveM1 envActiveM1
    (CreateResp.ok 201 (some "b2") none) 10 sessW (by decide)

/-- Wrapper of the negative-verification frame property at the
verify_bot_active level. -/
lemma verify_neg_frame (env : String → GetResp) (s : MeetingSession)
    (h : (verify_bot_active env s).1 = false) :
    (verify_bot_active env s).2.1 = s :=
  verifyGo_neg_frame env (verifyEndpoints s) s h

/-- Verification never changes the session's scheduled start time. -/
lemma verify_start_time (env : String → GetResp) (s : MeetingSession) :
    (verify_bot_active env s).2.1.start_time = s.start_time := by
  cases h : (verify_bot_active env s).1 with
  | false => rw [verify_neg_frame env s h]
  | true =>
    obtain ⟨e, he, bots, henv, b, hb, hs⟩ :=
      verifyGo_pos env (verifyEndpoints s) s h
    show (verifyGo env s (verifyEndpoints s)).2.1.start_time = s.start_time
    rw [hs]

/-- Every session kept by a sweep pass has a start time at most 2 hours
in the past. -/
lemma sweepSession_kept (env : String → GetResp) (now : Int)
    (s s1 : MeetingSession) (h : (sweepSession env now s).1 = some s1) :
    ¬ s1.start_time < now - 7200 := by
  by_cases h1 : s.status = .created ∧ s.start_time ≤ now ∧
      now - s.start_time < 600
  · cases hv : (verify_bot_active env s).1 with
    | true =>
      simp [sweepSession, if_pos h1, hv] at h
      have hst : s1.start_time = s.start_time := by
        rw [← h]
        exact verify_start_time env s
      rw [hst]
      omega
    | false =>
      simp [sweepSession, if_pos h1, hv] at h
      have hst : s1.start_time = s.start_time := by
        rw [← h]
        exact verify_start_time env s
      rw [hst]
      omega
  · simp only [sweepSession, if_neg h1] at h
    by_cases h2 : s.start_time < now - 7200
    · simp [if_pos h2] at h
    · simp only [if_neg h2, Option.some.injEq] at h
      rw [← h]
      exact h2

/-- Claim C3: on every sweep pass, every session whose scheduled start
is more than 2 hours in the past is removed regardless of its state, a
gateway delete is issued when it holds a bot reference, and the
resulting session map holds no such stale session. -/
theorem staleness_sweep :
    (∀ (env : String → GetResp) (now : Int) (s : MeetingSession),
      s.start_time < now - 7200 →
      (sweepSession env now s).1 = none ∧
      ((∃ b, s.bot_session_id = some b) →
        Ev.deleteBot ∈ (sweepSession env now s).2)) ∧
    (∀ (env : String → GetResp) (now : Int)
       (l : List (String × MeetingSession)) (p : String × MeetingSession),
      p ∈ (check_pending_joins env now l).1 →
      ¬ p.2.start_time < now - 7200) := by
  constructor
  · intro env now s h
    have hcond : ¬(s.status = .created ∧ s.start_time ≤ now ∧
        now - s.start_time < 600) := by
      rintro ⟨-, -, h3⟩
      omega
    refine ⟨?_, ?_⟩
    · simp [sweepSession, if_neg hcond, if_pos h]
    · rintro ⟨b, hb⟩
      simp [sweepSession, if_neg hcond, if_pos h, hb]
  · intro env now l
    induction l with
    | nil => intro p hp; simp [check_pending_joins] at hp
    | cons q rest ih =>
      intro p hp
      obtain ⟨i, s⟩ := q
      simp only [check_pending_joins] at hp
      cases hsw : (sweepSession env now s).1 with
      | some s1 =>
        simp only [hsw, List.mem_cons] at hp
        rcases hp with hp | hp
        · rw [hp]
          exact sweepSession_kept env now s s1 hsw
        · exact ih p hp
      | none =>
        simp only [hsw] at hp
        exact ih p hp

/-- An in-progress session for m1 holding a bot reference, scheduled at
time 0. -/
def sessStale : MeetingSession :=
  { sessW with status := .in_progress, bot_session_id := some "b1" }

/-- Concrete instance of the staleness sweep: at now = 10000 s the
session scheduled at 0 (state IN_PROGRESS, bot reference held) is
removed and its bot receives a delete call. -/
theorem staleness_sweep_witness :
    Ev.deleteBot ∈ (sweepSession envDown 10000 sessStale).2 ∧
    (sweepSession envDown 10000 sessStale).1 = none := by
  have h := staleness_sweep.1 envDown 10000 sessStale (by decide)
  exact ⟨h.2 ⟨"b1", rfl⟩, h.1⟩

/-- The delivery retry loop never writes the session store. -/
lemma deliverFrom_no_save (resps : Nat → WebhookResp) (m : Nat) :
    ∀ (rem att : Nat), Ev.save ∉ deliverFrom resps m rem att := by
  intro rem
  induction rem with
  | zero => intro att; simp [deliverFrom]
  | succ n ih =>
    intro att
    simp only [deliverFrom]
    split
    · simp
    · split <;> simp [ih]

/-- Claim C4 counterexample: the orchestrator's join mutates the session
record (state and bot reference change) yet writes no session snapshot,
so not every mutation is persisted. -/
theorem persistence_after_mutation_cex :
    (join_meeting_with_athena envActiveM1 envActiveM1
        (CreateResp.ok 201 (some "b2") none) 10 sessW).2.1 ≠ sessW ∧
    Ev.save ∉ (join_meeting_with_athena envActiveM1 envActiveM1
        (CreateResp.ok 201 (some "b2") none) 10 sessW).2.2 := by
  decide

/-- Claim C4 amended: the sweep persists the session set after its
verified-active transition and after a stale-session removal, but
join_meeting_with_athena and finalize/delivery mutate session records
without ever writing the store. -/
theorem persistence_after_mutation_amended :
    (∀ (env1 env2 : String → GetResp) (cr : CreateResp) (d : Nat)
       (s : MeetingSession),
      Ev.save ∉ (join_meeting_with_athena env1 env2 cr d s).2.2) ∧
    (∀ (now : Int) (f : FetchResult) (resps : Nat → WebhookResp) (m : Nat)
       (s : MeetingSession),
      Ev.save ∉ (finalize_meeting now f resps m s).2) ∧
    (∀ (env : String → GetResp) (now : Int) (s : MeetingSession),
      s.start_time < now - 7200 → Ev.save ∈ (sweepSession env now s).2) ∧
    (∀ (env : String → GetResp) (now : Int) (s : MeetingSession),
      (s.status = .created ∧ s.start_time ≤ now ∧ now - s.start_time < 600) →
      (verify_bot_active env s).1 = true →
      Ev.save ∈ (sweepSession env now s).2) := by
  refine ⟨?_, ?_, ?_, ?_⟩
  · intro env1 env2 cr d s
    cases cr with
    | ok code id botId =>
      simp only [join_meeting_with_athena]
      split
      · simp
      · split <;> simp
    | conflict text =>
      simp only [join_meeting_with_athena]
      split
      · simp
      · split <;> split <;> simp
    | err code text =>
      simp only [join_meeting_with_athena]
      split
      · simp
      · split <;> simp
    | netErr msg =>
      simp only [join_meeting_with_athena]
      split
      · simp
      · split <;> simp
  · intro now f resps m s
    simp only [finalize_meeting, deliver_transcript_webhook]
    exact deliverFrom_no_save resps m m 0
  · intro env now s h
    have hcond : ¬(s.status = .created ∧ s.start_time ≤ now ∧
        now - s.start_time < 600) := by
      rintro ⟨-, -, h3⟩
      omega
    cases hb : s.bot_session_id <;>
      simp [sweepSession, if_neg hcond, if_pos h, hb]
  · intro env now s h1 hv
    simp [sweepSession, if_pos h1, hv]

/-- Concrete instance of the amended persistence property: the sweep's
removal of the stale session writes the store. -/
theorem persistence_after_mutation_amended_witness :
    Ev.save ∈ (sweepSession envDown 10000 sessStale).2 :=
  persistence_after_mutation_amended.2.2.1 envDown 10000 sessStale (by decide)

/-- Parsing the stored status value recovers the status. -/
lemma MeetingStatus.ofValue_value (st : MeetingStatus) :
    MeetingStatus.ofValue st.value = some st := by
  cases st <;> rfl

/-- Saving then loading one session yields the session with the unsaved
fields reset to their dataclass defaults. -/
lemma loadOne_saveOne (s : MeetingSession) :
    loadOne (saveOne s) = some (eraseUnsaved s) := by
  simp [loadOne, saveOne, eraseUnsaved, MeetingStatus.ofValue_value]

/-- A completed session whose transcript, error message and retry
counter are populated. -/
def sessT : MeetingSession :=
  { sessW with status := .in_progress, transcript := some "hello", error_message := some "boom", retry_count := 2 }

/-- Claim C5 counterexample: the persisted snapshot drops the
transcript (and error message and retry counter), so save followed by
load does not restore the session with all fields equal. -/
theorem snapshot_roundtrip_cex :
    load_sessions (save_sessions [("id1", sessT)]) ≠ [("id1", sessT)] := by
  decide

/-- Claim C5 amended: save followed by load restores every session id
with the seven persisted fields (meeting id, url, meet id, start and end
time, state, bot reference) equal to the saved values, while transcript,
error message and the join-retry counter are reset to their dataclass
defaults. -/
theorem snapshot_roundtrip_amended :
    ∀ l : List (String × MeetingSession),
      load_sessions (save_sessions l) =
        l.map (fun p => (p.1, eraseUnsaved p.2)) := by
  intro l
  induction l with
  | nil => rfl
  | cons p rest ih =>
    obtain ⟨i, s⟩ := p
    simp [save_sessions, load_sessions, loadOne_saveOne]
    simpa [save_sessions] using ih

/-- The delivery loop POSTs at most once per remaining attempt. -/
lemma deliverFrom_post_le (resps : Nat → WebhookResp) (m : Nat) :
    ∀ (rem att : Nat), (deliverFrom resps m rem att).count Ev.post ≤ rem := by
  intro rem
  induction rem with
  | zero => intro att; simp [deliverFrom]
  | succ n ih =>
    intro att
    simp only [deliverFrom]
    split
    · simp
    · split
      · have := ih (att + 1)
        simp [List.count_cons]
        omega
      · have := ih (att + 1)
        simp [List.count_cons]
        omega

/-- Claim C6: delivery POSTs up to the configured number of attempts
with 2^attempt-second backoff between failed attempts, never mutates the
session, and with 3 attempts against a sink always answering 500 makes
exactly 3 POSTs with delays of 1 s and 2 s. -/
theorem delivery_retry_backoff :
    (∀ (resps : Nat → WebhookResp) (m : Nat) (s : MeetingSession),
      (deliver_transcript_webhook resps m s).1 = s) ∧
    (∀ (resps : Nat → WebhookResp) (m : Nat) (s : MeetingSession),
      (deliver_transcript_webhook resps m s).2.count Ev.post ≤ m) ∧
    (∀ s : MeetingSession,
      (deliver_transcript_webhook (fun _ => WebhookResp.status 500) 3 s).2 =
        [.post, .sleep 1, .post, .sleep 2, .post]) := by
  refine ⟨fun _ _ _ => rfl, ?_, fun s => rfl⟩
  intro resps m s
  exact deliverFrom_post_le resps m m 0

/-- The cleanup events the join emits for an existing bot reference. -/
def cleanupEvs : Option String → List Ev
  | some _ => [Ev.deleteBot, Ev.sleep 2]
  | none => []

/-- Claim C7: when the gateway create returns 409, the join performs
exactly one re-verification and never retries the create; if it reports
the bot active the session becomes InProgress and the join succeeds,
otherwise the session becomes Failed with the error recorded. -/
theorem conflict_resolution_409 :
    ∀ (env1 env2 : String → GetResp) (d : Nat) (s : MeetingSession)
      (text : String),
    (verify_bot_active env1 { s with status := .bot_joining }).1 = false →
    join_meeting_with_athena env1 env2 (CreateResp.conflict text) d s =
      (let s2 : MeetingSession :=
        { s with status := .bot_joining, bot_session_id := none }
       let v2 := verify_bot_active env2 s2
       let tr := Ev.verify :: cleanupEvs s.bot_session_id ++
         [Ev.sleep d, Ev.create, Ev.verify]
       let emsg := "Bot exists but not active: " ++ text
       if v2.1 then (true, { v2.2.1 with status := .in_progress }, tr)
       else
         (false,
          { v2.2.1 with status := .failed, error_message := some emsg },
          tr)) ∧
    (join_meeting_with_athena env1 env2
        (CreateResp.conflict text) d s).2.2.count Ev.create = 1 := by
  intro env1 env2 d s text h
  have hframe := verify_neg_frame env1 { s with status := .bot_joining } h
  have hmain : join_meeting_with_athena env1 env2
      (CreateResp.conflict text) d s =
      (let s2 : MeetingSession :=
        { s with status := .bot_joining, bot_session_id := none }
       let v2 := verify_bot_active env2 s2
       let tr := Ev.verify :: cleanupEvs s.bot_session_id ++
         [Ev.sleep d, Ev.create, Ev.verify]
       let emsg := "Bot exists but not active: " ++ text
       if v2.1 then (true, { v2.2.1 with status := .in_progress }, tr)
       else
         (false,
          { v2.2.1 with status := .failed, error_message := some emsg },
          tr)) := by
    cases hb : s.bot_session_id with
    | none =>
      simp only [join_meeting_with_athena, h, Bool.false_eq_true, if_false,
        hframe]
      simp [hb, cleanupEvs]
    | some b =>
      simp only [join_meeting_with_athena, h, Bool.false_eq_true, if_false,
        hframe]
      simp [hb, cleanupEvs]
  refine ⟨hmain, ?_⟩
  rw [hmain]
  cases hb : s.bot_session_id <;> simp only [cleanupEvs, hb] <;> split <;>
    simp [cleanupEvs]

/-- Concrete instance of the 409 resolution: against a dead gateway for
the initial verification and an active bot at re-verification time, one
create and one re-verification occur. -/
theorem conflict_resolution_409_witness :
    join_meeting_with_athena envDown envActiveM1
        (CreateResp.conflict "dup") 10 sessW =
      (let s2 : MeetingSession :=
        { sessW with status := .bot_joining, bot_session_id := none }
       let v2 := verify_bot_active envActiveM1 s2
       let tr := Ev.verify :: cleanupEvs sessW.bot_session_id ++
         [Ev.sleep 10, Ev.create, Ev.verify]
       let emsg := "Bot exists but not active: " ++ "dup"
       if v2.1 then (true, { v2.2.1 with status := .in_progress }, tr)
       else
         (false,
          { v2.2.1 with status := .failed, error_message := some emsg },
          tr)) ∧
    (join_meeting_with_athena envDown envActiveM1
        (CreateResp.conflict "dup") 10 sessW).2.2.count Ev.create = 1 :=
  conflict_resolution_409 envDown envActiveM1 10 sessW "dup" (by decide)

/-- The verifier lookup order as the spec states it: status by meeting
reference, then status by the stored bot id, then list-all.  Written
from the spec's words for comparison with the code's verifyEndpoints. -/
def verifyEndpointsSpec (s : MeetingSession) : List String :=
  ["/bots/google_meet/" ++ s.google_meet_id,
   "/bots/" ++ s.bot_session_id.getD "",
   "/bots"]

/-- A session for m1 holding bot reference b1. -/
def sessB : MeetingSession := { sessW with bot_session_id := some "b1" }

/-- Claim C8 counterexample: with bot reference b1 stored, the second
endpoint the code queries is /bots/m1 — the single-bot endpoint fed the
meeting reference — not the spec's status-by-bot-id /bots/b1. -/
theorem verifier_lookup_cex :
    (verify_bot_active envDown sessB).2.2 =
      ["/bots/google_meet/m1", "/bots/m1", "/bots"] ∧
    verifyEndpointsSpec sessB =
      ["/bots/google_meet/m1", "/bots/b1", "/bots"] ∧
    (verify_bot_active envDown sessB).2.2 ≠ verifyEndpointsSpec sessB := by
  decide

/-- Claim C8 amended: verification tries, in order, status by meeting
reference, then the single-bot endpoint keyed again by the meeting
reference (not by the stored bot id), then list-all, querying an initial
segment of that order; it returns positive only when a returned bot both
matches the session's meeting identity and has an active normalized
status. -/
theorem verifier_lookup_amended :
    (∀ (env : String → GetResp) (s : MeetingSession),
      ∃ n, (verify_bot_active env s).2.2 = (verifyEndpoints s).take n) ∧
    (∀ s : MeetingSession, verifyEndpoints s =
      ["/bots/google_meet/" ++ s.google_meet_id,
       "/bots/" ++ s.google_meet_id, "/bots"]) ∧
    (∀ (env : String → GetResp) (s : MeetingSession),
      (verify_bot_active env s).1 = true →
      ∃ e ∈ (verify_bot_active env s).2.2, ∃ bots, env e = GetResp.ok bots ∧
        ∃ b ∈ bots, botMatches s.google_meet_id b = true ∧
          botActive b = true) := by
  refine ⟨fun env s => verifyGo_queried env (verifyEndpoints s) s,
    fun s => rfl, ?_⟩
  intro env s h
  obtain ⟨e, he, bots, henv, b, hb, hs⟩ :=
    verifyGo_pos env (verifyEndpoints s) s h
  obtain ⟨hmem, hmatch, hact⟩ := findActiveBot_spec _ _ _ hb
  exact ⟨e, he, bots, henv, b, hmem, hmatch, hact⟩

/-- Concrete instance of the amended verifier property: a positive
verification exhibits a queried endpoint whose response holds a
matching active bot. -/
theorem verifier_lookup_amended_witness :
    ∃ e ∈ (verify_bot_active envActiveM1 sessW).2.2, ∃ bots,
      envActiveM1 e = GetResp.ok bots ∧
      ∃ b ∈ bots, botMatches sessW.google_meet_id b = true ∧
        botActive b = true :=
  verifier_lookup_amended.2.2 envActiveM1 sessW (by decide)

/-- Invariant of the admission-monitor loop: the reconnection counter
never exceeds 5, and both the exhaustion exit and the timeout exit leave
the session FAILED. -/
lemma admissionGo_inv (d : Nat) (ticks : Nat → AdmTick) :
    ∀ (fuel : Nat) (s : MeetingSession) (r i : Nat),
      r ≤ admMaxReconnectAttempts →
      (monitorAdmissionGo d ticks s r fuel i).2.2 ≤
          admMaxReconnectAttempts ∧
      (((monitorAdmissionGo d ticks s r fuel i).1 = .failedExhausted ∨
        (monitorAdmissionGo d ticks s r fuel i).1 = .failedTimeout) →
       (monitorAdmissionGo d ticks s r fuel i).2.1.status = .failed) := by
  intro fuel
  induction fuel with
  | zero =>
    intro s r i hr
    exact ⟨hr, fun _ => rfl⟩
  | succ n ih =>
    intro s r i hr
    simp only [monitorAdmissionGo]
    split
    · exact ⟨hr, fun hc => by rcases hc with hc | hc <;> simp at hc⟩
    · split
      · split
        · exact ⟨hr, fun hc => by rcases hc with hc | hc <;> simp at hc⟩
        · split
          · exact ih _ r (i + 1) hr
          · split
            · split
              · split
                · constructor
                  · show r + 1 ≤ admMaxReconnectAttempts
                    omega
                  · intro hc
                    rcases hc with hc | hc <;> simp at hc
                · exact ih _ (r + 1) (i + 1) (by omega)
              · exact ⟨hr, fun _ => rfl⟩
            · exact ih _ r (i + 1) hr
      · exact ih _ r (i + 1) hr
      · exact ih _ r (i + 1) hr

/-- Claim C9: the admission monitor runs at most 10 minutes in 5-second
ticks (120 ticks), makes at most 5 reconnection attempts, and whenever
it stops by exhausting them or by the time bound the session is set to
Failed. -/
theorem admission_monitor_failure :
    (admMaxMonitoringTime = 600 ∧ admCheckInterval = 5 ∧
      admMaxReconnectAttempts = 5 ∧ admMaxTicks = 120) ∧
    (∀ (d : Nat) (ticks : Nat → AdmTick) (s : MeetingSession),
      (monitor_bot_admission d ticks s).2.2 ≤ admMaxReconnectAttempts) ∧
    (∀ (d : Nat) (ticks : Nat → AdmTick) (s : MeetingSession),
      ((monitor_bot_admission d ticks s).1 = .failedExhausted ∨
       (monitor_bot_admission d ticks s).1 = .failedTimeout) →
      (monitor_bot_admission d ticks s).2.1.status = .failed) := by
  refine ⟨⟨rfl, rfl, rfl, rfl⟩, ?_, ?_⟩
  · intro d ticks s
    exact (admissionGo_inv d ticks admMaxTicks s 0 0 (by decide)).1
  · intro d ticks s h
    exact (admissionGo_inv d ticks admMaxTicks s 0 0 (by decide)).2 h

/-- A tick stream whose verification always fails at transport level,
whose detailed status is always "failed", and whose reconnection joins
always hit a 500 from the gateway. -/
def ticksFail : Nat → AdmTick := fun _ =>
  { verifyEnv := fun _ => GetResp.netErr, statusResp := .ok "failed",
    joinEnv1 := fun _ => GetResp.netErr, joinEnv2 := fun _ => GetResp.netErr,
    createResp := .err 500 "boom" }

/-- Concrete instance of admission-monitor failure: against a dead
verifier and a permanently failed bot the monitor exhausts its 5
reconnection attempts and marks the session FAILED. -/
theorem admission_monitor_failure_witness :
    (monitor_bot_admission 0 ticksFail sessW).2.1.status = .failed :=
  admission_monitor_failure.2.2 0 ticksFail sessW (Or.inl (by decide))

end Athena
